import Mathlib

/-!
Verification of the adaptive-audio engine (`src/scripts/main.js`,
class `AdaptiveAudioPlayer`) against its natural-language specification.

The JavaScript code is shallowly embedded: numeric values are modelled as
exact rationals (`ℚ`) where we need to evaluate, and the mix-curve functions
are stated polymorphically over a `LinearOrderedField` so that the same
definitions can be instantiated at `ℝ` for the continuity statements.
Stateful methods of `AdaptiveAudioPlayer` become pure functions from an
explicit `PlayerState` to a new `PlayerState` (plus observations of the
calls made to the host's sound primitive, which is external to the repo).
-/

namespace AdaptiveAudio

/-- A control point of the mix curve: `{p: intensity, v: volume}` as in the
`points` arrays of `calculateMix` (main.js lines 908-927). -/
structure Point (α : Type) where
  p : α
  v : α
deriving DecidableEq

/-- The `interp` helper inside `AdaptiveAudioPlayer.calculateMix`
(main.js lines 894-905): scans consecutive pairs of control points, linearly
interpolates inside the first interval containing `val`, and falls through to
the last point's `v` when no interval matches. The JS `for` loop over
`i = 0 .. points.length-2` is rendered as structural recursion on the list. -/
def interp {α : Type} [LinearOrderedField α] (val : α) : List (Point α) → α
  | [] => 0
  | [pt] => pt.v
  | p1 :: p2 :: rest =>
    if p1.p ≤ val ∧ val ≤ p2.p then
      let range := p2.p - p1.p
      let progress := (val - p1.p) / range
      p1.v + (p2.v - p1.v) * progress
    else interp val (p2 :: rest)

/-- Result record of `calculateMix`: `{ low, mid, high }`. -/
@[ext]
structure Mix (α : Type) where
  low : α
  mid : α
  high : α
deriving DecidableEq

/-- `AdaptiveAudioPlayer.calculateMix` (main.js lines 891-930): the 5-stage
curve. Control points are written as exact fractions (`0.25 = 1/4`, …). -/
def calculateMix {α : Type} [LinearOrderedField α] (intensity : α) : Mix α :=
  let low := interp intensity [
    ⟨0, 1⟩,
    ⟨1/4, 0⟩,
    ⟨1/2, 1⟩,
    ⟨3/4, 0⟩,
    ⟨1, 1⟩]
  let mid := interp intensity [
    ⟨0, 0⟩,
    ⟨1/4, 1⟩,
    ⟨1, 1⟩]
  let high := interp intensity [
    ⟨0, 0⟩,
    ⟨1/2, 0⟩,
    ⟨3/4, 1⟩,
    ⟨1, 1⟩]
  { low := low, mid := mid, high := high }

/-! ## State model of `AdaptiveAudioPlayer`

The host's sound primitive (`foundry.audio.Sound`) is external to the
repository; following spec section 6 it is modelled as a record with
`play({volume, loop, offset?})`, `stop()`, `currentTime`, `duration`,
`volume` and `playing`. All other definitions below embed code from
`src/scripts/main.js`.
-/

/-- A handle of the host's sound-layer primitive (spec section 6): playback
state observable and controllable by the engine. -/
structure LayerSound where
  playing : Bool
  currentTime : ℚ
  duration : ℚ
  volume : ℚ
  loop : Bool
deriving DecidableEq

/-- Options record passed to the primitive's `play` call. -/
structure PlayOptions where
  volume : ℚ
  offset : Option ℚ
  loop : Bool
deriving DecidableEq

/-- The primitive's `stop()`: playback ceases. -/
def LayerSound.stop (s : LayerSound) : LayerSound :=
  { s with playing := false }

/-- The primitive's `play(opts)`: starts playback at `opts.offset` (0 when
absent) with the given volume and loop flag. -/
def LayerSound.play (opts : PlayOptions) (s : LayerSound) : LayerSound :=
  { s with
    playing := true
    currentTime := opts.offset.getD 0
    volume := opts.volume
    loop := opts.loop }

/-- A playlist document as seen by the engine: its identity and playback
mode. -/
structure Playlist where
  id : ℕ
  mode : ℤ
deriving DecidableEq

/-- `CONST.PLAYLIST_MODES.SIMULTANEOUS` in the host API. -/
def PLAYLIST_MODES_SIMULTANEOUS : ℤ := 2

/-- A `PlaylistSound` document as read by the engine: `sound.path` is the
High layer path, the flags `midIntensityPath` / `lowIntensityPath` are the
alternate layer paths, `volume` is the per-track slider (`?? 1.0` when
undefined), and `looping` models the JS field `sound.repeat` (`repeat` is a
reserved word in Lean). `none` for a path models both a missing flag and an
empty string (JS falsiness). -/
structure SoundDoc where
  id : ℕ
  parent : Option Playlist
  path : Option String
  midIntensityPath : Option String
  lowIntensityPath : Option String
  volume : Option ℚ
  looping : Bool
deriving DecidableEq

/-- One value of the `playingSounds` map: `{highSound, midSound, lowSound,
sound, needsInitialSync}` as stored by `_playAdaptiveSound` (main.js lines
681-687). `needsInitialSync` is written `false` at creation and never read. -/
structure Entry where
  highSound : Option LayerSound
  midSound : Option LayerSound
  lowSound : Option LayerSound
  sound : SoundDoc
  needsInitialSync : Bool
deriving DecidableEq

/-- The three intensity layers. -/
inductive Layer where
  | low
  | mid
  | high
deriving DecidableEq

/-- Field access on an `Entry` by layer. -/
def Entry.layer (e : Entry) : Layer → Option LayerSound
  | Layer.low => e.lowSound
  | Layer.mid => e.midSound
  | Layer.high => e.highSound

/-- Field update on an `Entry` by layer. -/
def Entry.setLayer (e : Entry) : Layer → LayerSound → Entry
  | Layer.low, s => { e with lowSound := some s }
  | Layer.mid, s => { e with midSound := some s }
  | Layer.high, s => { e with highSound := some s }

/-- The primary layer for drift purposes: `lowSound || midSound || highSound`
(main.js line 1044), i.e. priority Low > Mid > High among present layers. -/
def primaryLayer (e : Entry) : Option Layer :=
  if e.lowSound.isSome then some Layer.low
  else if e.midSound.isSome then some Layer.mid
  else if e.highSound.isSome then some Layer.high
  else none

/-- The fields of the player read by `_applyIntensityToSound` besides the
entry itself: intensity, master volume and the custom-mix state. -/
structure MixGlobals where
  intensity : ℚ
  masterVolume : ℚ
  customMixEnabled : Bool
  customHighVolume : Option ℚ
  customMidVolume : Option ℚ
  customLowVolume : Option ℚ
deriving DecidableEq

/-- `AdaptiveAudioPlayer._applyIntensityToSound` (main.js lines 937-1008),
acting on one entry: computes `lowVolume`/`midVolume`/`highVolume` from the
set of available tracks and writes them to the present layers. The branches
mirror the JS `if` cascade: custom mix, all three tracks, High+Mid,
High+Low, Mid+Low, then the single-track fallback. -/
def applyIntensityEntry (g : MixGlobals) (e : Entry) : Entry :=
  let hasLow := e.lowSound.isSome
  let hasMid := e.midSound.isSome
  let hasHigh := e.highSound.isSome
  let trackVolume := e.sound.volume.getD 1
  let effectiveMasterVolume := g.masterVolume * trackVolume
  let volumes : ℚ × ℚ × ℚ :=
    if g.customMixEnabled then
      ((g.customLowVolume.getD 1) * effectiveMasterVolume,
       (g.customMidVolume.getD 1) * effectiveMasterVolume,
       (g.customHighVolume.getD 1) * effectiveMasterVolume)
    else if hasLow ∧ hasMid ∧ hasHigh then
      let mix := calculateMix g.intensity
      (mix.low * effectiveMasterVolume,
       mix.mid * effectiveMasterVolume,
       mix.high * effectiveMasterVolume)
    else if ¬hasLow ∧ hasMid ∧ hasHigh then
      let progress := g.intensity
      (0, (1 - progress) * effectiveMasterVolume, progress * effectiveMasterVolume)
    else if hasLow ∧ ¬hasMid ∧ hasHigh then
      let progress := g.intensity
      ((1 - progress) * effectiveMasterVolume, 0, progress * effectiveMasterVolume)
    else if hasLow ∧ hasMid ∧ ¬hasHigh then
      let progress := g.intensity
      ((1 - progress) * effectiveMasterVolume, progress * effectiveMasterVolume, 0)
    else
      (if hasLow then effectiveMasterVolume else 0,
       if hasMid then effectiveMasterVolume else 0,
       if hasHigh then effectiveMasterVolume else 0)
  { e with
    lowSound := e.lowSound.map (fun s => { s with volume := volumes.1 })
    midSound := e.midSound.map (fun s => { s with volume := volumes.2.1 })
    highSound := e.highSound.map (fun s => { s with volume := volumes.2.2 }) }

/-- Lookup in a JS `Map` keyed by sound id, modelled as an insertion-ordered
association list. -/
def mapLookup (l : List (ℕ × Entry)) (k : ℕ) : Option Entry :=
  match l with
  | [] => none
  | (k1, v1) :: rest => if k1 = k then some v1 else mapLookup rest k

/-- `Map.set`: replace in place if the key exists, otherwise append. -/
def mapSet (l : List (ℕ × Entry)) (k : ℕ) (v : Entry) : List (ℕ × Entry) :=
  match l with
  | [] => [(k, v)]
  | (k1, v1) :: rest => if k1 = k then (k, v) :: rest else (k1, v1) :: mapSet rest k v

/-- `Map.delete`: remove the entry with the given key (keys are unique in a
JS `Map`; duplicates, which cannot arise from `mapSet`, are all removed). -/
def mapErase (l : List (ℕ × Entry)) (k : ℕ) : List (ℕ × Entry) :=
  match l with
  | [] => []
  | (k1, v1) :: rest => if k1 = k then mapErase rest k else (k1, v1) :: mapErase rest k

/-- The mutable state of an `AdaptiveAudioPlayer` instance relevant to the
engine core (main.js lines 118-150). Timer handles (`fadeInterval`,
`driftMonitorInterval`) are identifiers of host interval timers; `none`
models JS `null`. External persistence (`game.settings`) and the host's
document store are outside this state. -/
structure PlayerState where
  playingSounds : List (ℕ × Entry)
  loadingSounds : List ℕ
  intensity : ℚ
  masterVolume : ℚ
  customMixEnabled : Bool
  customHighVolume : Option ℚ
  customMidVolume : Option ℚ
  customLowVolume : Option ℚ
  preCombatIntensity : Option ℚ
  userOverrideDuringCombat : Bool
  fadeInterval : Option ℕ
  driftMonitorInterval : Option ℕ
deriving DecidableEq

/-- The `MixGlobals` view of a player state. -/
def mixGlobals (st : PlayerState) : MixGlobals :=
  { intensity := st.intensity
    masterVolume := st.masterVolume
    customMixEnabled := st.customMixEnabled
    customHighVolume := st.customHighVolume
    customMidVolume := st.customMidVolume
    customLowVolume := st.customLowVolume }

/-- `AdaptiveAudioPlayer._applyIntensityToSound` (main.js lines 937-1008) as
a state transformer: no-op when `soundId` has no entry, otherwise rewrite
the entry's layer volumes. -/
def applyIntensityToSound (st : PlayerState) (soundId : ℕ) : PlayerState :=
  match mapLookup st.playingSounds soundId with
  | none => st
  | some entry =>
    { st with playingSounds :=
        mapSet st.playingSounds soundId (applyIntensityEntry (mixGlobals st) entry) }

/-- `AdaptiveAudioPlayer._stopAdaptiveSound` (main.js lines 724-750). The
external document update (`sound.update({playing:false})`, skipped under
`skipUpdate`) is host persistence and not part of this state; the returned
`Option Entry` is the observation of the `stop()` calls issued to the
entry's present layers. Stops the drift monitor when no sounds remain. -/
def stopAdaptiveSound (st : PlayerState) (soundId : ℕ) (skipUpdate : Bool) :
    PlayerState × Option Entry :=
  match mapLookup st.playingSounds soundId with
  | none => (st, none)
  | some entry =>
    let entry1 := { entry with
      lowSound := entry.lowSound.map LayerSound.stop
      midSound := entry.midSound.map LayerSound.stop
      highSound := entry.highSound.map LayerSound.stop }
    let st1 := { st with playingSounds := mapErase st.playingSounds soundId }
    let st2 :=
      if st1.playingSounds = [] then { st1 with driftMonitorInterval := none }
      else st1
    (st2, some entry1)

/-- `AdaptiveAudioPlayer.setGlobalIntensity` (main.js lines 757-779): clamp
and store the intensity, flag a user override when a combat snapshot is held
and the call is not a sync/fade call, and re-apply the mix to every playing
sound. GM persistence to `game.settings` is external. Note: this method
never touches `fadeInterval`. -/
def setGlobalIntensity (st : PlayerState) (intensity : ℚ) (fromSync : Bool) :
    PlayerState :=
  let st1 := { st with intensity := max 0 (min 1 intensity) }
  let st2 :=
    if ¬fromSync ∧ st1.preCombatIntensity.isSome then
      { st1 with userOverrideDuringCombat := true }
    else st1
  (st2.playingSounds.map Prod.fst).foldl
    (fun acc soundId => applyIntensityToSound acc soundId) st2

/-- `AdaptiveAudioPlayer.fadeTo` (main.js lines 794-846), restricted to its
synchronous effect on the player state: clear any existing fade timer and
install a fresh interval timer (`newHandle`). The per-tick eased
`setGlobalIntensity(_, true)` calls happen on later timer events, outside
this call. -/
def fadeTo (st : PlayerState) (targetIntensity : ℚ) (duration : ℕ)
    (updateUI : Bool) (newHandle : ℕ) : PlayerState :=
  let st1 :=
    if st.fadeInterval.isSome then { st with fadeInterval := none }
    else st
  { st1 with fadeInterval := some newHandle }

/-- `AdaptiveAudioPlayer.setMasterVolume` (main.js lines 1014-1020): clamp
and store, persist (external), then re-apply via `setGlobalIntensity` —
called without the `fromSync` flag, i.e. `fromSync = false`. -/
def setMasterVolume (st : PlayerState) (volume : ℚ) : PlayerState :=
  let st1 := { st with masterVolume := max 0 (min 1 volume) }
  setGlobalIntensity st1 st1.intensity false

/-- One combat encounter as seen by the combat hooks: identity and whether
it has started. -/
structure Combat where
  id : ℕ
  started : Bool
deriving DecidableEq

/-- Observation of a `fadeTo(target, duration, updateUI)` call made by a
combat hook. -/
structure FadeCall where
  target : ℚ
  duration : ℕ
  updateUI : Bool
deriving DecidableEq

/-- The `combatStart` hook body (main.js lines 361-376): `autoSet` is the
`autoSetCombatIntensity` setting, `targetIntensity` the `combatIntensity`
setting already scaled to `[0,1]`. Captures the snapshot only when none is
held, then fades to the combat intensity over 2000 ms with UI update. -/
def handleCombatStart (st : PlayerState) (autoSet : Bool) (targetIntensity : ℚ)
    (newHandle : ℕ) : PlayerState × Option FadeCall :=
  if ¬autoSet then (st, none)
  else
    let st1 :=
      if st.preCombatIntensity = none then
        { st with preCombatIntensity := some st.intensity
                  userOverrideDuringCombat := false }
      else st
    (fadeTo st1 targetIntensity 2000 true newHandle,
     some { target := targetIntensity, duration := 2000, updateUI := true })

/-- `game.combats.filter(c => c.started && c.id !== combat.id)` (main.js
line 383): the other still-active combat encounters. -/
def otherActiveCombats (combats : List Combat) (combatId : ℕ) : List Combat :=
  combats.filter (fun c => c.started ∧ c.id ≠ combatId)

/-- The `deleteCombat` hook body (main.js lines 378-402): `autoSet` is the
`autoSetCombatIntensity` setting, `combatId` the ended combat, `combats` the
world's combat collection. If other started combats remain, do nothing.
Otherwise fade back to the snapshot over 2000 ms unless the user overrode
during combat, and clear both combat state fields. -/
def handleDeleteCombat (st : PlayerState) (autoSet : Bool) (combatId : ℕ)
    (combats : List Combat) (newHandle : ℕ) : PlayerState × Option FadeCall :=
  if ¬autoSet then (st, none)
  else
    if 0 < (otherActiveCombats combats combatId).length then (st, none)
    else
      if st.userOverrideDuringCombat = false ∧ st.preCombatIntensity.isSome then
        let pre := st.preCombatIntensity.getD 0
        let st1 := fadeTo st pre 2000 true newHandle
        ({ st1 with preCombatIntensity := none, userOverrideDuringCombat := false },
         some { target := pre, duration := 2000, updateUI := true })
      else
        ({ st with preCombatIntensity := none, userOverrideDuringCombat := false },
         none)

/-- `AdaptiveAudioPlayer._playAdaptiveSound` (main.js lines 609-716). The
asynchronous layer loads are modelled as immediately successful, with
`durFn` giving each path's decoded duration and `driftHandle` the interval
timer installed when the drift monitor starts; `loadFails = true` models the
`catch` path (a load/start error: nothing is registered, the loading guard
is released). The steps, in source order: loading-guard check, playlist
exclusivity, path configuration check, restart of an already-playing entry,
loading-set insertion, construction and load of the layer sounds, map
registration, `play({volume: 0, loop})` on every present layer, mix
application, drift-monitor start, loading-set release. -/
def playAdaptiveSound (st : PlayerState) (snd : SoundDoc) (durFn : String → ℚ)
    (driftHandle : ℕ) (loadFails : Bool) : PlayerState :=
  if snd.id ∈ st.loadingSounds then st
  else
    let st1 :=
      match snd.parent with
      | none => st
      | some playlist =>
        if playlist.mode ≠ PLAYLIST_MODES_SIMULTANEOUS then
          let soundsToStop := (st.playingSounds.filter (fun pr =>
            (pr.2.sound.parent.map Playlist.id = some playlist.id) ∧ pr.1 ≠ snd.id)).map Prod.fst
          soundsToStop.foldl (fun acc i => (stopAdaptiveSound acc i false).1) st
        else st
    let highPath := snd.path
    let midPath := snd.midIntensityPath
    let lowPath := snd.lowIntensityPath
    if midPath = none ∧ lowPath = none then st1
    else
      let st2 :=
        if (mapLookup st1.playingSounds snd.id).isSome then
          (stopAdaptiveSound st1 snd.id false).1
        else st1
      let st3 := { st2 with loadingSounds := snd.id :: st2.loadingSounds }
      if loadFails then
        { st3 with loadingSounds := st3.loadingSounds.filter (fun i => i ≠ snd.id) }
      else
        let mk : String → LayerSound := fun p =>
          { playing := false, currentTime := 0, duration := durFn p,
            volume := 0, loop := false }
        let entry : Entry :=
          { highSound := highPath.map mk
            midSound := midPath.map mk
            lowSound := lowPath.map mk
            sound := snd
            needsInitialSync := false }
        let st4 := { st3 with playingSounds := mapSet st3.playingSounds snd.id entry }
        let playOpts : PlayOptions := { volume := 0, offset := none, loop := snd.looping }
        let entry1 := { entry with
          highSound := entry.highSound.map (LayerSound.play playOpts)
          midSound := entry.midSound.map (LayerSound.play playOpts)
          lowSound := entry.lowSound.map (LayerSound.play playOpts) }
        let st5 := { st4 with playingSounds := mapSet st4.playingSounds snd.id entry1 }
        let st6 := applyIntensityToSound st5 snd.id
        let st7 :=
          if st6.driftMonitorInterval = none then
            { st6 with driftMonitorInterval := some driftHandle }
          else st6
        { st7 with loadingSounds := st7.loadingSounds.filter (fun i => i ≠ snd.id) }

/-- The `checkDrift` closure inside the drift monitor (main.js lines
1058-1086), applied to the layer `l` of the entry: skip absent or
non-playing secondaries; when the drift against the primary's captured
`baseTime` exceeds 0.1 s, stop the secondary, re-play it at an offset equal
to the primary's current time (the primary is untouched by the tick, so this
equals `baseTime`), and immediately re-apply the mix volumes. -/
def checkDriftField (g : MixGlobals) (looping : Bool) (baseTime : ℚ)
    (l : Layer) (e : Entry) : Entry :=
  match e.layer l with
  | none => e
  | some secondary =>
    if ¬secondary.playing then e
    else if 1/10 < |secondary.currentTime - baseTime| then
      let secondary1 := LayerSound.play
        { volume := 0, offset := some baseTime, loop := looping }
        secondary.stop
      applyIntensityEntry g (e.setLayer l secondary1)
    else e

/-- One drift-monitor inspection of one entry (the loop body of
`_startDriftMonitoring`, main.js lines 1039-1095): pick the primary
(Low > Mid > High), skip when it is absent or not playing, stop the set on
end-of-track (`none` result; non-looping, within 0.2 s of the duration),
otherwise run `checkDrift` on the High, Mid and Low layers that are not the
primary, in that order. -/
def driftTickEntry (g : MixGlobals) (e : Entry) : Option Entry :=
  match primaryLayer e with
  | none => some e
  | some lp =>
    match e.layer lp with
    | none => some e
    | some primarySound =>
      if ¬primarySound.playing then some e
      else if ¬e.sound.looping ∧ 0 < primarySound.duration ∧
          primarySound.duration - 1/5 ≤ primarySound.currentTime then
        none
      else
        let looping := e.sound.looping
        let baseTime := primarySound.currentTime
        let e1 := if lp ≠ Layer.high then checkDriftField g looping baseTime Layer.high e else e
        let e2 := if lp ≠ Layer.mid then checkDriftField g looping baseTime Layer.mid e1 else e1
        let e3 := if lp ≠ Layer.low then checkDriftField g looping baseTime Layer.low e2 else e2
        some e3

/-- One tick of the drift monitor over the whole state
(`_startDriftMonitoring`, main.js lines 1030-1098): stop the monitor when
nothing is playing, otherwise inspect every entry, removing those that
reached end-of-track via `stopAdaptiveSound` and writing back the corrected
layers of the others. -/
def driftMonitorTick (st : PlayerState) : PlayerState :=
  if st.playingSounds = [] then { st with driftMonitorInterval := none }
  else
    (st.playingSounds.map Prod.fst).foldl
      (fun acc soundId =>
        match mapLookup acc.playingSounds soundId with
        | none => acc
        | some e =>
          match driftTickEntry (mixGlobals acc) e with
          | none => (stopAdaptiveSound acc soundId false).1
          | some e1 => { acc with playingSounds := mapSet acc.playingSounds soundId e1 })
      st

/-- Sample mix globals with custom mix enabled, used by the C6 witness. -/
def customGlobals : MixGlobals :=
  { intensity := 0
    masterVolume := 1
    customMixEnabled := true
    customHighVolume := some 1
    customMidVolume := some (3/10)
    customLowVolume := some 0 }

/-- Sample layer handle used to build witness entries. -/
def sampleLayer : LayerSound :=
  { playing := true, currentTime := 10, duration := 100, volume := 1/2, loop := true }

/-- Sample playlist (sequential mode, not simultaneous). -/
def samplePlaylist : Playlist := { id := 1, mode := 0 }

/-- Sample fully configured adaptive sound document. -/
def sampleSound : SoundDoc :=
  { id := 2
    parent := some samplePlaylist
    path := some "high.ogg"
    midIntensityPath := some "mid.ogg"
    lowIntensityPath := some "low.ogg"
    volume := some 1
    looping := true }

/-- Sample three-layer entry. -/
def sampleEntry : Entry :=
  { highSound := some sampleLayer
    midSound := some sampleLayer
    lowSound := some sampleLayer
    sound := sampleSound
    needsInitialSync := false }

/-! ## C2: an explicit intensity set does not clear an in-flight fade -/

/-- A state with a fade in flight: timer handle 7 is installed. -/
def fadingState : PlayerState :=
  { playingSounds := []
    loadingSounds := []
    intensity := 1/2
    masterVolume := 1
    customMixEnabled := false
    customHighVolume := some 1
    customMidVolume := some 1
    customLowVolume := some 1
    preCombatIntensity := none
    userOverrideDuringCombat := false
    fadeInterval := some 7
    driftMonitorInterval := none }

/-- A state holding a combat snapshot, used by witnesses. -/
def combatState : PlayerState :=
  { playingSounds := []
    loadingSounds := []
    intensity := 1
    masterVolume := 1
    customMixEnabled := false
    customHighVolume := some 1
    customMidVolume := some 1
    customLowVolume := some 1
    preCombatIntensity := some (1/2)
    userOverrideDuringCombat := false
    fadeInterval := none
    driftMonitorInterval := none }

/-- Combat list with one other started encounter. -/
def otherCombats : List Combat := [{ id := 9, started := true }]

/-- A one-entry state used by the C7 witness. -/
def singleEntryState : PlayerState :=
  { playingSounds := [(2, sampleEntry)]
    loadingSounds := []
    intensity := 1/2
    masterVolume := 1
    customMixEnabled := false
    customHighVolume := some 1
    customMidVolume := some 1
    customLowVolume := some 1
    preCombatIntensity := none
    userOverrideDuringCombat := false
    fadeInterval := none
    driftMonitorInterval := some 9 }

/-- A High-only sound document (no alternate intensity paths), sibling of
the playing sound in `singleEntryState`. -/
def highOnlySound : SoundDoc :=
  { id := 1
    parent := some samplePlaylist
    path := some "main.ogg"
    midIntensityPath := none
    lowIntensityPath := none
    volume := some 1
    looping := true }

/-- The playback-relevant core of a layer slot: presence, playing flag,
position and duration (everything except the written volume). -/
def sameLayerCore (o1 o2 : Option LayerSound) : Prop :=
  o1.isSome = o2.isSome ∧
  o1.map LayerSound.playing = o2.map LayerSound.playing ∧
  o1.map LayerSound.currentTime = o2.map LayerSound.currentTime ∧
  o1.map LayerSound.duration = o2.map LayerSound.duration

/-- Mix globals for the C4 witness (curve mode). -/
def driftGlobals : MixGlobals :=
  { intensity := 1/2
    masterVolume := 1
    customMixEnabled := false
    customHighVolume := some 1
    customMidVolume := some 1
    customLowVolume := some 1 }

/-- Primary (Low) layer at 10 s for the C4 witness. -/
def driftPrimary : LayerSound :=
  { playing := true, currentTime := 10, duration := 100, volume := 1,
    loop := true }

/-- Secondary (Mid) layer drifted 0.15 s ahead for the C4 witness. -/
def driftSecondary : LayerSound :=
  { playing := true, currentTime := 203/20, duration := 100, volume := 1,
    loop := true }

/-- Two-layer entry with a 0.15 s drift between Low (primary) and Mid. -/
def driftEntry : Entry :=
  { highSound := none
    midSound := some driftSecondary
    lowSound := some driftPrimary
    sound := sampleSound
    needsInitialSync := false }

/-- Closed form of the `low` component of `calculateMix`. -/
theorem calculateMix_low_eq {α : Type} [LinearOrderedField α] (v : α) :
    (calculateMix v).low =
      if 0 ≤ v ∧ v ≤ 1/4 then 1 - 4 * v
      else if 1/4 ≤ v ∧ v ≤ 1/2 then 4 * (v - 1/4)
      else if 1/2 ≤ v ∧ v ≤ 3/4 then 1 - 4 * (v - 1/2)
      else if 3/4 ≤ v ∧ v ≤ 1 then 4 * (v - 3/4)
      else 1 := by
  simp only [calculateMix, interp]
  split_ifs <;> norm_num [div_div_eq_mul_div] <;> ring

/-- Closed form of the `mid` component of `calculateMix`. -/
theorem calculateMix_mid_eq {α : Type} [LinearOrderedField α] (v : α) :
    (calculateMix v).mid =
      if 0 ≤ v ∧ v ≤ 1/4 then 4 * v
      else if 1/4 ≤ v ∧ v ≤ 1 then 1
      else 1 := by
  simp only [calculateMix, interp]
  split_ifs <;> norm_num [div_div_eq_mul_div] <;> ring

/-- Closed form of the `high` component of `calculateMix`. -/
theorem calculateMix_high_eq {α : Type} [LinearOrderedField α] (v : α) :
    (calculateMix v).high =
      if 0 ≤ v ∧ v ≤ 1/2 then 0
      else if 1/2 ≤ v ∧ v ≤ 3/4 then 4 * (v - 1/2)
      else if 3/4 ≤ v ∧ v ≤ 1 then 1
      else 1 := by
  simp only [calculateMix, interp]
  split_ifs <;> norm_num [div_div_eq_mul_div] <;> ring

/-- Gluing lemma: a function continuous on two closed sets is continuous on
their union. -/
theorem continuousOn_union_of_isClosed {α β : Type} [TopologicalSpace α]
    [TopologicalSpace β] {f : α → β} {s t : Set α} (hs : IsClosed s)
    (ht : IsClosed t) (hfs : ContinuousOn f s) (hft : ContinuousOn f t) :
    ContinuousOn f (s ∪ t) := by
  intro x hx
  refine ContinuousWithinAt.union ?_ ?_
  · by_cases hxs : x ∈ s
    · exact hfs x hxs
    · exact continuousWithinAt_of_not_mem_closure (by rwa [hs.closure_eq])
  · by_cases hxt : x ∈ t
    · exact hft x hxt
    · exact continuousWithinAt_of_not_mem_closure (by rwa [ht.closure_eq])

/-- The `low` component agrees with `1 - 4v` on `[0, 1/4]`. -/
theorem low_contOn_piece1 :
    ContinuousOn (fun v : ℝ => (calculateMix v).low) (Set.Icc 0 (1/4)) := by
  refine ContinuousOn.congr (f := fun v : ℝ => 1 - 4 * v) (by fun_prop) ?_
  intro v hv
  rw [Set.mem_Icc] at hv
  show (calculateMix v).low = _
  rw [calculateMix_low_eq, if_pos ⟨hv.1, hv.2⟩]

/-- The `low` component agrees with `4(v - 1/4)` on `[1/4, 1/2]`. -/
theorem low_contOn_piece2 :
    ContinuousOn (fun v : ℝ => (calculateMix v).low) (Set.Icc (1/4) (1/2)) := by
  refine ContinuousOn.congr (f := fun v : ℝ => 4 * (v - 1/4)) (by fun_prop) ?_
  intro v hv
  rw [Set.mem_Icc] at hv
  show (calculateMix v).low = 4 * (v - 1/4)
  rw [calculateMix_low_eq]
  split_ifs with h1
  · linarith [h1.2, hv.1]
  · rfl

/-- The `low` component agrees with `1 - 4(v - 1/2)` on `[1/2, 3/4]`. -/
theorem low_contOn_piece3 :
    ContinuousOn (fun v : ℝ => (calculateMix v).low) (Set.Icc (1/2) (3/4)) := by
  refine ContinuousOn.congr (f := fun v : ℝ => 1 - 4 * (v - 1/2)) (by fun_prop) ?_
  intro v hv
  rw [Set.mem_Icc] at hv
  show (calculateMix v).low = 1 - 4 * (v - 1/2)
  rw [calculateMix_low_eq]
  split_ifs with h1 h2
  · linarith [h1.2, hv.1]
  · linarith [h2.2, hv.1]
  · rfl

/-- The `low` component agrees with `4(v - 3/4)` on `[3/4, 1]`. -/
theorem low_contOn_piece4 :
    ContinuousOn (fun v : ℝ => (calculateMix v).low) (Set.Icc (3/4) 1) := by
  refine ContinuousOn.congr (f := fun v : ℝ => 4 * (v - 3/4)) (by fun_prop) ?_
  intro v hv
  rw [Set.mem_Icc] at hv
  show (calculateMix v).low = 4 * (v - 3/4)
  rw [calculateMix_low_eq]
  split_ifs with h1 h2 h3
  · linarith [h1.2, hv.1]
  · linarith [h2.2, hv.1]
  · linarith [h3.2, hv.1]
  · rfl

/-- The `low` component of the mix curve is continuous on `[0, 1]`. -/
theorem low_contOn :
    ContinuousOn (fun v : ℝ => (calculateMix v).low) (Set.Icc 0 1) := by
  have h12 := continuousOn_union_of_isClosed isClosed_Icc isClosed_Icc
    low_contOn_piece1 low_contOn_piece2
  rw [Set.Icc_union_Icc_eq_Icc (by norm_num) (by norm_num)] at h12
  have h123 := continuousOn_union_of_isClosed isClosed_Icc isClosed_Icc
    h12 low_contOn_piece3
  rw [Set.Icc_union_Icc_eq_Icc (by norm_num) (by norm_num)] at h123
  have h1234 := continuousOn_union_of_isClosed isClosed_Icc isClosed_Icc
    h123 low_contOn_piece4
  rwa [Set.Icc_union_Icc_eq_Icc (by norm_num) (by norm_num)] at h1234

/-- The `mid` component agrees with `4v` on `[0, 1/4]`. -/
theorem mid_contOn_piece1 :
    ContinuousOn (fun v : ℝ => (calculateMix v).mid) (Set.Icc 0 (1/4)) := by
  refine ContinuousOn.congr (f := fun v : ℝ => 4 * v) (by fun_prop) ?_
  intro v hv
  rw [Set.mem_Icc] at hv
  show (calculateMix v).mid = _
  rw [calculateMix_mid_eq, if_pos ⟨hv.1, hv.2⟩]

/-- The `mid` component agrees with `1` on `[1/4, 1]`. -/
theorem mid_contOn_piece2 :
    ContinuousOn (fun v : ℝ => (calculateMix v).mid) (Set.Icc (1/4) 1) := by
  refine ContinuousOn.congr (f := fun _ : ℝ => (1 : ℝ)) (by fun_prop) ?_
  intro v hv
  rw [Set.mem_Icc] at hv
  show (calculateMix v).mid = 1
  rw [calculateMix_mid_eq]
  split_ifs with h1
  · linarith [h1.2, hv.1]
  · rfl

/-- The `mid` component of the mix curve is continuous on `[0, 1]`. -/
theorem mid_contOn :
    ContinuousOn (fun v : ℝ => (calculateMix v).mid) (Set.Icc 0 1) := by
  have h12 := continuousOn_union_of_isClosed isClosed_Icc isClosed_Icc
    mid_contOn_piece1 mid_contOn_piece2
  rwa [Set.Icc_union_Icc_eq_Icc (by norm_num) (by norm_num)] at h12

/-- The `high` component agrees with `0` on `[0, 1/2]`. -/
theorem high_contOn_piece1 :
    ContinuousOn (fun v : ℝ => (calculateMix v).high) (Set.Icc 0 (1/2)) := by
  refine ContinuousOn.congr (f := fun _ : ℝ => (0 : ℝ)) (by fun_prop) ?_
  intro v hv
  rw [Set.mem_Icc] at hv
  show (calculateMix v).high = _
  rw [calculateMix_high_eq, if_pos ⟨hv.1, hv.2⟩]

/-- The `high` component agrees with `4(v - 1/2)` on `[1/2, 3/4]`. -/
theorem high_contOn_piece2 :
    ContinuousOn (fun v : ℝ => (calculateMix v).high) (Set.Icc (1/2) (3/4)) := by
  refine ContinuousOn.congr (f := fun v : ℝ => 4 * (v - 1/2)) (by fun_prop) ?_
  intro v hv
  rw [Set.mem_Icc] at hv
  show (calculateMix v).high = 4 * (v - 1/2)
  rw [calculateMix_high_eq]
  split_ifs with h1
  · linarith [h1.2, hv.1]
  · rfl

/-- The `high` component agrees with `1` on `[3/4, 1]`. -/
theorem high_contOn_piece3 :
    ContinuousOn (fun v : ℝ => (calculateMix v).high) (Set.Icc (3/4) 1) := by
  refine ContinuousOn.congr (f := fun _ : ℝ => (1 : ℝ)) (by fun_prop) ?_
  intro v hv
  rw [Set.mem_Icc] at hv
  show (calculateMix v).high = 1
  rw [calculateMix_high_eq]
  split_ifs with h1 h2
  · linarith [h1.2, hv.1]
  · linarith [h2.2, hv.1]
  · rfl

/-- The `high` component of the mix curve is continuous on `[0, 1]`. -/
theorem high_contOn :
    ContinuousOn (fun v : ℝ => (calculateMix v).high) (Set.Icc 0 1) := by
  have h12 := continuousOn_union_of_isClosed isClosed_Icc isClosed_Icc
    high_contOn_piece1 high_contOn_piece2
  rw [Set.Icc_union_Icc_eq_Icc (by norm_num) (by norm_num)] at h12
  have h123 := continuousOn_union_of_isClosed isClosed_Icc isClosed_Icc
    h12 high_contOn_piece3
  rwa [Set.Icc_union_Icc_eq_Icc (by norm_num) (by norm_num)] at h123

/-- C3: with three layers present, `calculateMix` is the piecewise-linear
interpolation through the stated control points: each component is continuous
on `[0,1]` (no discontinuity at 0.25, 0.5, 0.75), and at intensity
`v ∈ {0, 0.25, 0.5, 0.75, 1}` the audible (volume > 0) layer set equals
`{Low}`, `{Mid}`, `{Low, Mid}`, `{Mid, High}`, `{Low, Mid, High}`
respectively. -/
theorem calculateMix_continuous_and_stage_sets :
    (ContinuousOn (fun v : ℝ => (calculateMix v).low) (Set.Icc 0 1) ∧
     ContinuousOn (fun v : ℝ => (calculateMix v).mid) (Set.Icc 0 1) ∧
     ContinuousOn (fun v : ℝ => (calculateMix v).high) (Set.Icc 0 1)) ∧
    (0 < (calculateMix (0 : ℝ)).low ∧ (calculateMix (0 : ℝ)).mid = 0 ∧
      (calculateMix (0 : ℝ)).high = 0) ∧
    ((calculateMix (1/4 : ℝ)).low = 0 ∧ 0 < (calculateMix (1/4 : ℝ)).mid ∧
      (calculateMix (1/4 : ℝ)).high = 0) ∧
    (0 < (calculateMix (1/2 : ℝ)).low ∧ 0 < (calculateMix (1/2 : ℝ)).mid ∧
      (calculateMix (1/2 : ℝ)).high = 0) ∧
    ((calculateMix (3/4 : ℝ)).low = 0 ∧ 0 < (calculateMix (3/4 : ℝ)).mid ∧
      0 < (calculateMix (3/4 : ℝ)).high) ∧
    (0 < (calculateMix (1 : ℝ)).low ∧ 0 < (calculateMix (1 : ℝ)).mid ∧
      0 < (calculateMix (1 : ℝ)).high) := by
  refine ⟨⟨low_contOn, mid_contOn, high_contOn⟩, ?_, ?_, ?_, ?_, ?_⟩ <;>
    refine ⟨?_, ?_, ?_⟩ <;>
      first
        | (rw [calculateMix_low_eq]; norm_num)
        | (rw [calculateMix_mid_eq]; norm_num)
        | (rw [calculateMix_high_eq]; norm_num)

/-- Bounds of the `low` component for every rational input. -/
theorem low_bounds (v : ℚ) :
    0 ≤ (calculateMix v).low ∧ (calculateMix v).low ≤ 1 := by
  rw [calculateMix_low_eq]
  split_ifs with h1 h2 h3 h4
  · constructor <;> linarith [h1.1, h1.2]
  · constructor <;> linarith [h2.1, h2.2]
  · constructor <;> linarith [h3.1, h3.2]
  · constructor <;> linarith [h4.1, h4.2]
  · norm_num

/-- Bounds of the `mid` component for every rational input. -/
theorem mid_bounds (v : ℚ) :
    0 ≤ (calculateMix v).mid ∧ (calculateMix v).mid ≤ 1 := by
  rw [calculateMix_mid_eq]
  split_ifs with h1 h2
  · constructor <;> linarith [h1.1, h1.2]
  · norm_num
  · norm_num

/-- Bounds of the `high` component for every rational input. -/
theorem high_bounds (v : ℚ) :
    0 ≤ (calculateMix v).high ∧ (calculateMix v).high ≤ 1 := by
  rw [calculateMix_high_eq]
  split_ifs with h1 h2 h3
  · norm_num
  · constructor <;> linarith [h2.1, h2.2]
  · norm_num
  · norm_num

/-- C8: for every input value `v` passed to `calculateMix` — including values
outside `[0,1]` — each component of the result lies within `[0,1]`. -/
theorem calculateMix_output_componentwise_in_unit_interval (v : ℚ) :
    (0 ≤ (calculateMix v).low ∧ (calculateMix v).low ≤ 1) ∧
    (0 ≤ (calculateMix v).mid ∧ (calculateMix v).mid ≤ 1) ∧
    (0 ≤ (calculateMix v).high ∧ (calculateMix v).high ≤ 1) :=
  ⟨low_bounds v, mid_bounds v, high_bounds v⟩

/-- For a negative input the `low` interpolation matches no interval and
falls through to the last control point. -/
theorem low_neg (v : ℚ) (h : v < 0) : (calculateMix v).low = 1 := by
  rw [calculateMix_low_eq]
  split_ifs with h1 h2 h3 h4
  · linarith [h1.1]
  · linarith [h2.1]
  · linarith [h3.1]
  · linarith [h4.1]
  · rfl

/-- For a negative input the `mid` interpolation matches no interval and
falls through to the last control point. -/
theorem mid_neg (v : ℚ) (h : v < 0) : (calculateMix v).mid = 1 := by
  rw [calculateMix_mid_eq]
  split_ifs with h1 h2
  · linarith [h1.1]
  · rfl
  · rfl

/-- For a negative input the `high` interpolation matches no interval and
falls through to the last control point. -/
theorem high_neg (v : ℚ) (h : v < 0) : (calculateMix v).high = 1 := by
  rw [calculateMix_high_eq]
  split_ifs with h1 h2 h3
  · linarith [h1.1]
  · linarith [h2.1]
  · rfl
  · rfl

/-- C10: for every input `v < 0`, `calculateMix` returns the last control
point values `{low: 1, mid: 1, high: 1}` — the same result as `v = 1` — and
not the `v = 0` mix `{low: 1, mid: 0, high: 0}`, because the interpolation
loop matches no control interval for negative inputs. -/
theorem calculateMix_negative_input_clamps_to_last_point (v : ℚ) (h : v < 0) :
    calculateMix v = { low := 1, mid := 1, high := 1 } ∧
    calculateMix v = calculateMix 1 ∧
    calculateMix v ≠ calculateMix 0 := by
  have h111 : calculateMix v = ({ low := 1, mid := 1, high := 1 } : Mix ℚ) := by
    refine Mix.ext ?_ ?_ ?_
    · exact low_neg v h
    · exact mid_neg v h
    · exact high_neg v h
  have hone : calculateMix (1 : ℚ) = ({ low := 1, mid := 1, high := 1 } : Mix ℚ) := by
    refine Mix.ext ?_ ?_ ?_ <;>
      norm_num [calculateMix_low_eq, calculateMix_mid_eq, calculateMix_high_eq]
  have hzero : calculateMix (0 : ℚ) = ({ low := 1, mid := 0, high := 0 } : Mix ℚ) := by
    refine Mix.ext ?_ ?_ ?_ <;>
      norm_num [calculateMix_low_eq, calculateMix_mid_eq, calculateMix_high_eq]
  refine ⟨h111, by rw [h111, hone], ?_⟩
  rw [h111, hzero]
  intro hcontra
  have hmids := congrArg Mix.mid hcontra
  norm_num at hmids

/-- Concrete instance of C10 at `v = -1`. -/
theorem calculateMix_negative_input_clamps_witness :
    calculateMix (-1 : ℚ) = { low := 1, mid := 1, high := 1 } ∧
    calculateMix (-1 : ℚ) = calculateMix 1 ∧
    calculateMix (-1 : ℚ) ≠ calculateMix 0 :=
  calculateMix_negative_input_clamps_to_last_point (-1) (by norm_num)

/-! ## Helper lemmas about the map operations and state transformers -/

/-- Erasing a key makes it unfindable. -/
theorem mapLookup_mapErase_self (l : List (ℕ × Entry)) (k : ℕ) :
    mapLookup (mapErase l k) k = none := by
  induction l with
  | nil => rfl
  | cons a t ih =>
    obtain ⟨k1, v1⟩ := a
    by_cases h : k1 = k
    · simpa [mapErase, h] using ih
    · simpa [mapErase, mapLookup, h] using ih

/-- Erasing one key leaves the other keys' lookups unchanged. -/
theorem mapLookup_mapErase_ne (l : List (ℕ × Entry)) (k i : ℕ) (h : i ≠ k) :
    mapLookup (mapErase l k) i = mapLookup l i := by
  induction l with
  | nil => rfl
  | cons a t ih =>
    obtain ⟨k1, v1⟩ := a
    by_cases ha : k1 = k
    · have h1 : ¬k1 = i := by rw [ha]; exact fun he => h he.symm
      simpa [mapErase, mapLookup, ha, h1, Ne.symm h] using ih
    · by_cases hai : k1 = i
      · simp [mapErase, mapLookup, ha, hai, h]
      · simpa [mapErase, mapLookup, ha, hai] using ih

/-- A successful lookup exhibits a member of the list. -/
theorem mapLookup_mem (l : List (ℕ × Entry)) (k : ℕ) (e : Entry)
    (h : mapLookup l k = some e) : (k, e) ∈ l := by
  induction l with
  | nil => simp [mapLookup] at h
  | cons a t ih =>
    by_cases ha : a.1 = k
    · rw [show a = (a.1, a.2) from rfl, ha]
      simp [mapLookup, ha] at h
      rw [h]
      exact List.mem_cons_self _ _
    · simp [mapLookup, ha] at h
      exact List.mem_cons_of_mem _ (ih h)

/-- `applyIntensityToSound` changes only the `playingSounds` field. -/
theorem applyIntensityToSound_only_playingSounds (st : PlayerState) (i : ℕ) :
    ∃ ps, applyIntensityToSound st i = { st with playingSounds := ps } := by
  unfold applyIntensityToSound
  cases mapLookup st.playingSounds i with
  | none => exact ⟨st.playingSounds, rfl⟩
  | some e => exact ⟨_, rfl⟩

/-- The fold of `applyIntensityToSound` over a key list changes only the
`playingSounds` field. -/
theorem foldl_applyIntensity_only_playingSounds (l : List ℕ) (st : PlayerState) :
    ∃ ps, l.foldl (fun acc i => applyIntensityToSound acc i) st =
      { st with playingSounds := ps } := by
  induction l generalizing st with
  | nil => exact ⟨st.playingSounds, rfl⟩
  | cons a t ih =>
    obtain ⟨ps1, h1⟩ := applyIntensityToSound_only_playingSounds st a
    obtain ⟨ps2, h2⟩ := ih (applyIntensityToSound st a)
    refine ⟨ps2, ?_⟩
    rw [List.foldl_cons, h2, h1]

/-- `setGlobalIntensity` clamps and stores the intensity, sets the override
flag exactly when a combat snapshot is held on a non-sync call, rewrites
only layer volumes inside `playingSounds`, and touches nothing else — in
particular it never clears `fadeInterval`. -/
theorem setGlobalIntensity_eq (st : PlayerState) (v : ℚ) (fromSync : Bool) :
    ∃ ps, setGlobalIntensity st v fromSync =
      { st with
        intensity := max 0 (min 1 v)
        userOverrideDuringCombat :=
          if ¬fromSync ∧ st.preCombatIntensity.isSome then true
          else st.userOverrideDuringCombat
        playingSounds := ps } := by
  unfold setGlobalIntensity
  dsimp only
  split_ifs with hc
  · exact foldl_applyIntensity_only_playingSounds _ _
  · exact foldl_applyIntensity_only_playingSounds _ _

/-! ## C6: custom mix ignores global intensity -/

/-- C6: when `customMixEnabled` is true, the per-layer volumes written by
`_applyIntensityToSound` are a function only of the custom volume scalars,
the master volume and the sound's base volume: two runs that differ only in
the global intensity value write the same volume to every layer. -/
theorem customMix_volumes_ignore_intensity (g : MixGlobals) (i1 i2 : ℚ)
    (e : Entry) (h : g.customMixEnabled = true) :
    applyIntensityEntry { g with intensity := i1 } e =
    applyIntensityEntry { g with intensity := i2 } e := by
  simp [applyIntensityEntry, h]

/-- Concrete instance of C6: intensity 0 versus intensity 1 write identical
volumes under custom mix. -/
theorem customMix_volumes_ignore_intensity_witness :
    customGlobals.customMixEnabled = true ∧
    applyIntensityEntry { customGlobals with intensity := 0 } sampleEntry =
    applyIntensityEntry { customGlobals with intensity := 1 } sampleEntry :=
  ⟨rfl, customMix_volumes_ignore_intensity customGlobals 0 1 sampleEntry rfl⟩

/-- C2 evaluated at the failing input: while the fade timer 7 is in flight,
an explicit `setGlobalIntensity(0.9, fromSync = false)` leaves
`fadeInterval` untouched — the old fade keeps driving the intensity on its
next tick, so the previous timer is not cleared as the claim requires. -/
theorem setGlobalIntensity_does_not_clear_fade :
    fadingState.fadeInterval = some 7 ∧
    (setGlobalIntensity fadingState (9/10) false).fadeInterval = some 7 := by
  constructor
  · rfl
  · obtain ⟨ps, h⟩ := setGlobalIntensity_eq fadingState (9/10) false
    rw [h]
    rfl

/-! ## C9: master-volume change during combat flags a user override -/

/-- C9: `setMasterVolume` re-applies the mix through `setGlobalIntensity`
without the sync flag, so while a combat snapshot is held it sets
`userOverrideDuringCombat`; consequently the subsequent last combat-end does
not emit the restoring fade. -/
theorem setMasterVolume_during_combat_overrides (st : PlayerState) (v x : ℚ)
    (h : st.preCombatIntensity = some x) :
    (setMasterVolume st v).userOverrideDuringCombat = true ∧
    (∀ (combatId : ℕ) (combats : List Combat) (newHandle : ℕ),
      otherActiveCombats combats combatId = [] →
      (handleDeleteCombat (setMasterVolume st v) true combatId combats
        newHandle).2 = none) := by
  have hov : (setMasterVolume st v).userOverrideDuringCombat = true := by
    unfold setMasterVolume
    obtain ⟨ps, hps⟩ := setGlobalIntensity_eq
      ({ st with masterVolume := max 0 (min 1 v) })
      (({ st with masterVolume := max 0 (min 1 v) } : PlayerState).intensity) false
    rw [hps]
    simp [h]
  refine ⟨hov, fun combatId combats newHandle hfilter => ?_⟩
  unfold handleDeleteCombat
  simp [hfilter, hov]

/-- Concrete instance of C9: a master-volume change while the snapshot is
held flags the override and suppresses the restore fade at combat end. -/
theorem setMasterVolume_during_combat_overrides_witness :
    (setMasterVolume combatState (3/10)).userOverrideDuringCombat = true ∧
    (handleDeleteCombat (setMasterVolume combatState (3/10)) true 5 [] 3).2 =
      none := by
  obtain ⟨h1, h2⟩ := setMasterVolume_during_combat_overrides combatState (3/10) (1/2) rfl
  exact ⟨h1, h2 5 [] 3 rfl⟩

/-! ## C5: combat-end policy -/

/-- C5: on a combat-end while another started combat remains, the hook
changes nothing (state and snapshot kept, no fade); on the last combat-end
(with a snapshot held) both combat state fields are cleared regardless of
branch, and the 2-second fade back to the snapshot is emitted if and only if
the user did not override during the combat window. -/
theorem deleteCombat_policy (st : PlayerState) (x : ℚ) (combatId : ℕ)
    (combats : List Combat) (newHandle : ℕ)
    (hsnap : st.preCombatIntensity = some x) :
    ((otherActiveCombats combats combatId).length ≠ 0 →
      handleDeleteCombat st true combatId combats newHandle = (st, none)) ∧
    ((otherActiveCombats combats combatId).length = 0 →
      (handleDeleteCombat st true combatId combats newHandle).1.preCombatIntensity
        = none ∧
      (handleDeleteCombat st true combatId combats newHandle).1.userOverrideDuringCombat
        = false ∧
      ((handleDeleteCombat st true combatId combats newHandle).2 =
          some { target := x, duration := 2000, updateUI := true } ↔
        st.userOverrideDuringCombat = false)) := by
  constructor
  · intro hne
    unfold handleDeleteCombat
    simp [Nat.pos_of_ne_zero hne]
  · intro hzero
    unfold handleDeleteCombat
    by_cases hov : st.userOverrideDuringCombat = false
    · simp [hzero, hov, hsnap, fadeTo]
    · simp [hzero, hov, hsnap]

/-- Concrete instance of C5: with another active combat the hook does
nothing; with no other combat it clears the state and emits the restore
fade (no override was recorded in `combatState`). -/
theorem deleteCombat_policy_witness :
    (handleDeleteCombat combatState true 5 otherCombats 3 =
      (combatState, none)) ∧
    ((handleDeleteCombat combatState true 5 [] 3).1.preCombatIntensity = none ∧
     (handleDeleteCombat combatState true 5 [] 3).1.userOverrideDuringCombat = false ∧
     ((handleDeleteCombat combatState true 5 [] 3).2 =
        some { target := 1/2, duration := 2000, updateUI := true } ↔
      combatState.userOverrideDuringCombat = false)) := by
  constructor
  · exact (deleteCombat_policy combatState (1/2) 5 otherCombats 3 rfl).1
      (by decide)
  · exact (deleteCombat_policy combatState (1/2) 5 [] 3 rfl).2 rfl

/-! ## C7: stop is idempotent -/

/-- Stopping an unregistered sound id is a no-op. -/
theorem stopAdaptiveSound_none (st : PlayerState) (soundId : ℕ) (sk : Bool)
    (h : mapLookup st.playingSounds soundId = none) :
    stopAdaptiveSound st soundId sk = (st, none) := by
  unfold stopAdaptiveSound
  rw [h]

/-- After stopping a registered sound id, `playingSounds` is the erased map. -/
theorem stopAdaptiveSound_some_playingSounds (st : PlayerState) (soundId : ℕ)
    (sk : Bool) (e : Entry) (h : mapLookup st.playingSounds soundId = some e) :
    (stopAdaptiveSound st soundId sk).1.playingSounds =
      mapErase st.playingSounds soundId := by
  unfold stopAdaptiveSound
  rw [h]
  dsimp only
  split_ifs <;> rfl

/-- After a stop the id can no longer be looked up. -/
theorem stop_fst_lookup_self (st : PlayerState) (soundId : ℕ) (sk : Bool) :
    mapLookup (stopAdaptiveSound st soundId sk).1.playingSounds soundId = none := by
  cases hl : mapLookup st.playingSounds soundId with
  | none => rw [stopAdaptiveSound_none st soundId sk hl]; exact hl
  | some e =>
    rw [stopAdaptiveSound_some_playingSounds st soundId sk e hl]
    exact mapLookup_mapErase_self _ _

/-- A stop leaves lookups of other ids unchanged. -/
theorem stop_fst_lookup_ne (st : PlayerState) (soundId : ℕ) (sk : Bool) (i : ℕ)
    (h : i ≠ soundId) :
    mapLookup (stopAdaptiveSound st soundId sk).1.playingSounds i =
      mapLookup st.playingSounds i := by
  cases hl : mapLookup st.playingSounds soundId with
  | none => rw [stopAdaptiveSound_none st soundId sk hl]
  | some e =>
    rw [stopAdaptiveSound_some_playingSounds st soundId sk e hl]
    exact mapLookup_mapErase_ne _ _ _ h

/-- A stop changes only `playingSounds` and `driftMonitorInterval`. -/
theorem stop_fst_only_ps_dm (st : PlayerState) (soundId : ℕ) (sk : Bool) :
    ∃ ps dm, (stopAdaptiveSound st soundId sk).1 =
      { st with playingSounds := ps, driftMonitorInterval := dm } := by
  unfold stopAdaptiveSound
  cases hl : mapLookup st.playingSounds soundId with
  | none => exact ⟨st.playingSounds, st.driftMonitorInterval, rfl⟩
  | some e =>
    dsimp only
    split_ifs
    · exact ⟨_, none, rfl⟩
    · exact ⟨_, st.driftMonitorInterval, rfl⟩

/-- Erasing the only key present empties the map. -/
theorem mapErase_eq_nil_of_all (l : List (ℕ × Entry)) (k : ℕ)
    (h : ∀ pr ∈ l, pr.1 = k) : mapErase l k = [] := by
  induction l with
  | nil => rfl
  | cons a t ih =>
    obtain ⟨k1, v1⟩ := a
    have hk1 : k1 = k := h (k1, v1) (List.mem_cons_self _ _)
    simp only [mapErase, if_pos hk1]
    exact ih (fun pr hpr => h pr (List.mem_cons_of_mem _ hpr))

/-- C7: `_stopAdaptiveSound` is idempotent. Stopping a sound id with no
registered Track Set changes nothing and raises no error; stopping a
registered one makes it unfindable while leaving every other Track Set in
place, calls `stop()` on exactly the present layers (the returned
observation has the same present layers, all no longer playing), and halts
the Drift Monitor whenever the removed Track Set was the last one. -/
theorem stopAdaptiveSound_idempotent_spec (st : PlayerState) (soundId : ℕ)
    (skipUpdate : Bool) :
    (mapLookup st.playingSounds soundId = none →
      stopAdaptiveSound st soundId skipUpdate = (st, none)) ∧
    (∀ e, mapLookup st.playingSounds soundId = some e →
      mapLookup (stopAdaptiveSound st soundId skipUpdate).1.playingSounds soundId
        = none ∧
      (∀ i, i ≠ soundId →
        mapLookup (stopAdaptiveSound st soundId skipUpdate).1.playingSounds i =
        mapLookup st.playingSounds i) ∧
      (∃ e1, (stopAdaptiveSound st soundId skipUpdate).2 = some e1 ∧
        e1.lowSound.isSome = e.lowSound.isSome ∧
        e1.midSound.isSome = e.midSound.isSome ∧
        e1.highSound.isSome = e.highSound.isSome ∧
        (∀ s, e1.lowSound = some s → s.playing = false) ∧
        (∀ s, e1.midSound = some s → s.playing = false) ∧
        (∀ s, e1.highSound = some s → s.playing = false)) ∧
      ((∀ pr ∈ st.playingSounds, pr.1 = soundId) →
        (stopAdaptiveSound st soundId skipUpdate).1.driftMonitorInterval = none)) ∧
    (stopAdaptiveSound (stopAdaptiveSound st soundId skipUpdate).1 soundId
        skipUpdate).1 =
      (stopAdaptiveSound st soundId skipUpdate).1 := by
  refine ⟨fun h => stopAdaptiveSound_none st soundId skipUpdate h, ?_, ?_⟩
  · intro e he
    refine ⟨stop_fst_lookup_self st soundId skipUpdate,
      fun i hi => stop_fst_lookup_ne st soundId skipUpdate i hi, ?_, ?_⟩
    · unfold stopAdaptiveSound
      rw [he]
      refine ⟨_, rfl, ?_, ?_, ?_, ?_, ?_, ?_⟩ <;>
        cases e.lowSound <;> cases e.midSound <;> cases e.highSound <;>
          simp [LayerSound.stop]
    · intro hall
      unfold stopAdaptiveSound
      rw [he]
      dsimp only
      rw [if_pos ?_]
      exact mapErase_eq_nil_of_all st.playingSounds soundId hall
  · rw [stopAdaptiveSound_none _ soundId skipUpdate
      (stop_fst_lookup_self st soundId skipUpdate)]

/-- Concrete instance of C7 at a one-entry state. -/
theorem stopAdaptiveSound_idempotent_spec_witness :
    (mapLookup singleEntryState.playingSounds 2 = some sampleEntry) ∧
    (mapLookup (stopAdaptiveSound singleEntryState 2 false).1.playingSounds 2
      = none ∧
     (stopAdaptiveSound singleEntryState 2 false).1.driftMonitorInterval = none) ∧
    (stopAdaptiveSound (stopAdaptiveSound singleEntryState 2 false).1 2
        false).1 =
      (stopAdaptiveSound singleEntryState 2 false).1 := by
  have hspec := stopAdaptiveSound_idempotent_spec singleEntryState 2 false
  have hsome := (hspec.2.1 sampleEntry rfl)
  refine ⟨rfl, ⟨hsome.1, hsome.2.2.2 ?_⟩, hspec.2.2⟩
  intro pr hpr
  simp only [singleEntryState, List.mem_singleton] at hpr
  rw [hpr]

/-! ## C1: start with neither alternate path configured -/

/-- Lookups after the exclusivity-stop fold: stopped ids are gone, all other
lookups are unchanged. -/
theorem foldStops_lookup (L : List ℕ) (st : PlayerState) (i : ℕ) :
    mapLookup ((L.foldl (fun acc j => (stopAdaptiveSound acc j false).1)
      st)).playingSounds i =
      if i ∈ L then none else mapLookup st.playingSounds i := by
  induction L generalizing st with
  | nil => simp
  | cons a t ih =>
    rw [List.foldl_cons, ih]
    by_cases hmem : i ∈ t
    · simp [hmem]
    · by_cases hia : i = a
      · subst hia
        simp [hmem, stop_fst_lookup_self]
      · simp [hmem, hia, stop_fst_lookup_ne st a false i hia]

/-- The exclusivity-stop fold changes only `playingSounds` and
`driftMonitorInterval`. -/
theorem foldStops_only_ps_dm (L : List ℕ) (st : PlayerState) :
    ∃ ps dm, L.foldl (fun acc j => (stopAdaptiveSound acc j false).1) st =
      { st with playingSounds := ps, driftMonitorInterval := dm } := by
  induction L generalizing st with
  | nil => exact ⟨st.playingSounds, st.driftMonitorInterval, rfl⟩
  | cons a t ih =>
    obtain ⟨ps1, dm1, h1⟩ := stop_fst_only_ps_dm st a false
    obtain ⟨ps2, dm2, h2⟩ := ih (stopAdaptiveSound st a false).1
    refine ⟨ps2, dm2, ?_⟩
    rw [List.foldl_cons, h2, h1]
/-- C1 (amended): a start request for a sound with neither a mid nor a low
intensity path registers no Track Set and leaves the loading set and the
global mix/fade/combat state untouched, but it is not entirely free of state
changes: playlist exclusivity runs before the configuration check, so every
already-playing sibling Track Set in the same non-simultaneous container is
stopped; only when the container is simultaneous (or the sound is detached)
is the state left completely unchanged. -/
theorem playAdaptiveSound_missing_alternates (st : PlayerState)
    (snd : SoundDoc) (durFn : String → ℚ) (driftHandle : ℕ) (loadFails : Bool)
    (hmid : snd.midIntensityPath = none) (hlow : snd.lowIntensityPath = none)
    (hnl : snd.id ∉ st.loadingSounds) :
    mapLookup (playAdaptiveSound st snd durFn driftHandle loadFails).playingSounds
        snd.id = mapLookup st.playingSounds snd.id ∧
    (playAdaptiveSound st snd durFn driftHandle loadFails).loadingSounds =
      st.loadingSounds ∧
    ((playAdaptiveSound st snd durFn driftHandle loadFails).intensity =
        st.intensity ∧
     (playAdaptiveSound st snd durFn driftHandle loadFails).masterVolume =
        st.masterVolume ∧
     (playAdaptiveSound st snd durFn driftHandle loadFails).customMixEnabled =
        st.customMixEnabled ∧
     (playAdaptiveSound st snd durFn driftHandle loadFails).preCombatIntensity =
        st.preCombatIntensity ∧
     (playAdaptiveSound st snd durFn driftHandle loadFails).userOverrideDuringCombat =
        st.userOverrideDuringCombat ∧
     (playAdaptiveSound st snd durFn driftHandle loadFails).fadeInterval =
        st.fadeInterval) ∧
    (∀ playlist, snd.parent = some playlist →
      playlist.mode ≠ PLAYLIST_MODES_SIMULTANEOUS →
      ∀ i e, i ≠ snd.id → mapLookup st.playingSounds i = some e →
        e.sound.parent.map Playlist.id = some playlist.id →
        mapLookup (playAdaptiveSound st snd durFn driftHandle
          loadFails).playingSounds i = none) ∧
    ((snd.parent = none ∨ ∃ playlist, snd.parent = some playlist ∧
        playlist.mode = PLAYLIST_MODES_SIMULTANEOUS) →
      playAdaptiveSound st snd durFn driftHandle loadFails = st) := by
  rcases hp : snd.parent with _ | playlist
  · have hmain : playAdaptiveSound st snd durFn driftHandle loadFails = st := by
      simp [playAdaptiveSound, hp, hmid, hlow, hnl]
    rw [hmain]
    refine ⟨rfl, rfl, ⟨rfl, rfl, rfl, rfl, rfl, rfl⟩, ?_, fun _ => rfl⟩
    intro playlist hpl
    exact absurd hpl (by simp)
  · by_cases hmode : playlist.mode = PLAYLIST_MODES_SIMULTANEOUS
    · have hmain : playAdaptiveSound st snd durFn driftHandle loadFails = st := by
        simp [playAdaptiveSound, hp, hmode, hmid, hlow, hnl]
      rw [hmain]
      refine ⟨rfl, rfl, ⟨rfl, rfl, rfl, rfl, rfl, rfl⟩, ?_, fun _ => rfl⟩
      intro pl hpl hplmode
      injection hpl with hpl1
      exact absurd (hpl1 ▸ hmode) hplmode
    · have hmain : playAdaptiveSound st snd durFn driftHandle loadFails =
          ((st.playingSounds.filter (fun pr =>
              (pr.2.sound.parent.map Playlist.id = some playlist.id) ∧
              pr.1 ≠ snd.id)).map Prod.fst).foldl
            (fun acc j => (stopAdaptiveSound acc j false).1) st := by
        simp [playAdaptiveSound, hp, hmode, hmid, hlow, hnl]
      have hnotin : snd.id ∉ ((st.playingSounds.filter (fun pr =>
          (pr.2.sound.parent.map Playlist.id = some playlist.id) ∧
          pr.1 ≠ snd.id)).map Prod.fst) := by
        intro hmem
        obtain ⟨pr, hprf, hfst⟩ := List.mem_map.mp hmem
        have hpred := (List.mem_filter.mp hprf).2
        rw [decide_eq_true_iff] at hpred
        exact hpred.2 hfst
      obtain ⟨ps, dm, hfold⟩ := foldStops_only_ps_dm
        ((st.playingSounds.filter (fun pr =>
            (pr.2.sound.parent.map Playlist.id = some playlist.id) ∧
            pr.1 ≠ snd.id)).map Prod.fst) st
      refine ⟨?_, ?_, ?_, ?_, ?_⟩
      · rw [hmain, foldStops_lookup, if_neg hnotin]
      · rw [hmain, hfold]
      · rw [hmain, hfold]
        exact ⟨rfl, rfl, rfl, rfl, rfl, rfl⟩
      · intro pl hpl hplmode i e hi hlook hparent
        injection hpl with hpl1
        subst hpl1
        have hin : i ∈ ((st.playingSounds.filter (fun pr =>
            (pr.2.sound.parent.map Playlist.id = some playlist.id) ∧
            pr.1 ≠ snd.id)).map Prod.fst) := by
          refine List.mem_map.mpr ⟨(i, e), ?_, rfl⟩
          refine List.mem_filter.mpr ⟨mapLookup_mem _ _ _ hlook, ?_⟩
          exact decide_eq_true ⟨hparent, hi⟩
        rw [hmain, foldStops_lookup, if_pos hin]
      · intro hdisj
        rcases hdisj with hnone | ⟨pl, hpl, hplmode⟩
        · exact absurd hnone (by simp)
        · injection hpl with hpl1
          exact absurd (hpl1 ▸ hplmode) hmode

/-- C1 counterexample: starting the High-only sound in `singleEntryState`
(whose sequential playlist also holds the playing Track Set 2) stops that
sibling before the missing-configuration check bails out, so the call is not
free of state changes as the claim asserts. -/
theorem playAdaptiveSound_missing_alternates_stops_sibling :
    mapLookup singleEntryState.playingSounds 2 = some sampleEntry ∧
    mapLookup (playAdaptiveSound singleEntryState highOnlySound (fun _ => 100)
      7 false).playingSounds 2 = none ∧
    playAdaptiveSound singleEntryState highOnlySound (fun _ => 100) 7 false ≠
      singleEntryState := by
  have hgone : mapLookup (playAdaptiveSound singleEntryState highOnlySound
      (fun _ => 100) 7 false).playingSounds 2 = none := by
    have h := (playAdaptiveSound_missing_alternates singleEntryState
      highOnlySound (fun _ => 100) 7 false rfl rfl (by simp [singleEntryState]))
    exact h.2.2.2.1 samplePlaylist rfl (by decide) 2 sampleEntry
      (by decide) rfl rfl
  refine ⟨rfl, hgone, fun hEq => ?_⟩
  rw [hEq] at hgone
  exact Option.noConfusion ((rfl : mapLookup singleEntryState.playingSounds 2 =
    some sampleEntry).symm.trans hgone)

/-- Concrete instance of the amended C1 statement at the same inputs. -/
theorem playAdaptiveSound_missing_alternates_witness :
    mapLookup (playAdaptiveSound singleEntryState highOnlySound (fun _ => 100)
        7 false).playingSounds 1 = mapLookup singleEntryState.playingSounds 1 ∧
    (playAdaptiveSound singleEntryState highOnlySound (fun _ => 100) 7
        false).loadingSounds = singleEntryState.loadingSounds ∧
    (playAdaptiveSound singleEntryState highOnlySound (fun _ => 100) 7
        false).fadeInterval = singleEntryState.fadeInterval := by
  have h := playAdaptiveSound_missing_alternates singleEntryState highOnlySound
    (fun _ => 100) 7 false rfl rfl (by simp [singleEntryState])
  exact ⟨h.1, h.2.1, h.2.2.1.2.2.2.2.2⟩

/-! ## C4: drift-monitor resynchronisation -/

/-- Setting a layer makes it readable. -/
theorem Entry.layer_setLayer_self (e : Entry) (l : Layer) (s : LayerSound) :
    (e.setLayer l s).layer l = some s := by
  cases l <;> rfl

/-- Setting a layer leaves the other layers unchanged. -/
theorem Entry.layer_setLayer_ne (e : Entry) (l l1 : Layer) (s : LayerSound)
    (h : l1 ≠ l) : (e.setLayer l s).layer l1 = e.layer l1 := by
  cases l <;> cases l1 <;> first | rfl | exact absurd rfl h

/-- Setting a layer leaves the sound document unchanged. -/
theorem Entry.setLayer_sound (e : Entry) (l : Layer) (s : LayerSound) :
    (e.setLayer l s).sound = e.sound := by
  cases l <;> rfl

/-- `_applyIntensityToSound` rewrites only the volume of each present
layer. -/
theorem applyIntensityEntry_layer_exists (g : MixGlobals) (e : Entry)
    (l : Layer) :
    ∃ vol, (applyIntensityEntry g e).layer l =
      (e.layer l).map (fun s => { s with volume := vol }) := by
  cases l <;> exact ⟨_, rfl⟩

/-- `_applyIntensityToSound` leaves the sound document unchanged. -/
theorem applyIntensityEntry_sound (g : MixGlobals) (e : Entry) :
    (applyIntensityEntry g e).sound = e.sound := rfl

/-- `sameLayerCore` is reflexive. -/
theorem sameLayerCore_refl (o : Option LayerSound) : sameLayerCore o o :=
  ⟨rfl, rfl, rfl, rfl⟩

/-- `sameLayerCore` is transitive. -/
theorem sameLayerCore_trans {o1 o2 o3 : Option LayerSound}
    (h1 : sameLayerCore o1 o2) (h2 : sameLayerCore o2 o3) :
    sameLayerCore o1 o3 :=
  ⟨h1.1.trans h2.1, h1.2.1.trans h2.2.1, h1.2.2.1.trans h2.2.2.1,
   h1.2.2.2.trans h2.2.2.2⟩

/-- Unpacking `sameLayerCore` against a known slot. -/
theorem sameLayerCore_some {o1 : Option LayerSound} {s : LayerSound}
    (h : sameLayerCore o1 (some s)) :
    ∃ s1, o1 = some s1 ∧ s1.playing = s.playing ∧
      s1.currentTime = s.currentTime ∧ s1.duration = s.duration := by
  obtain ⟨h1, h2, h3, h4⟩ := h
  cases o1 with
  | none => simp at h1
  | some s1 =>
    exact ⟨s1, rfl, by simpa using h2, by simpa using h3, by simpa using h4⟩

/-- A volume write keeps the layer core. -/
theorem sameLayerCore_map_volume (o : Option LayerSound) (vol : ℚ) :
    sameLayerCore (o.map (fun s => { s with volume := vol })) o := by
  cases o <;> exact ⟨rfl, rfl, rfl, rfl⟩

/-- `_applyIntensityToSound` keeps every layer core. -/
theorem applyIntensityEntry_core (g : MixGlobals) (e : Entry) (l : Layer) :
    sameLayerCore ((applyIntensityEntry g e).layer l) (e.layer l) := by
  obtain ⟨vol, hv⟩ := applyIntensityEntry_layer_exists g e l
  rw [hv]
  exact sameLayerCore_map_volume _ _

/-- Applying the mix volumes twice equals applying them once: the computed
volumes depend only on layer presence, the sound's own volume and the
globals, none of which the first application changes. -/
theorem applyIntensityEntry_idem (g : MixGlobals) (e : Entry) :
    applyIntensityEntry g (applyIntensityEntry g e) = applyIntensityEntry g e := by
  obtain ⟨hs, ms, ls, snd, ni⟩ := e
  cases hs <;> cases ms <;> cases ls <;>
    by_cases hc : g.customMixEnabled <;>
      simp [applyIntensityEntry, hc]

/-- `checkDrift` on an absent layer is a no-op. -/
theorem checkDriftField_none (g : MixGlobals) (lo : Bool) (bt : ℚ) (l : Layer)
    (e : Entry) (h : e.layer l = none) :
    checkDriftField g lo bt l e = e := by
  unfold checkDriftField
  rw [h]

/-- `checkDrift` leaves the sound document unchanged. -/
theorem checkDriftField_sound (g : MixGlobals) (lo : Bool) (bt : ℚ) (l : Layer)
    (e : Entry) : (checkDriftField g lo bt l e).sound = e.sound := by
  unfold checkDriftField
  cases hl : e.layer l with
  | none => rfl
  | some sec =>
    dsimp only
    split_ifs
    · rw [applyIntensityEntry_sound, Entry.setLayer_sound]
    · rfl
    · rfl

/-- `checkDrift` of one layer keeps the core of every other layer. -/
theorem checkDriftField_core_ne (g : MixGlobals) (lo : Bool) (bt : ℚ)
    (l l1 : Layer) (e : Entry) (h : l1 ≠ l) :
    sameLayerCore ((checkDriftField g lo bt l e).layer l1) (e.layer l1) := by
  unfold checkDriftField
  cases hl : e.layer l with
  | none => exact sameLayerCore_refl _
  | some sec =>
    dsimp only
    split_ifs
    · refine sameLayerCore_trans (applyIntensityEntry_core _ _ _) ?_
      rw [Entry.layer_setLayer_ne _ _ _ _ h]
      exact sameLayerCore_refl _
    · exact sameLayerCore_refl _
    · exact sameLayerCore_refl _

/-- When the secondary at layer `l` is present, playing and drifted beyond
the threshold, `checkDrift` stops it, re-plays it at the primary's time and
re-applies the mix. -/
theorem checkDriftField_fires (g : MixGlobals) (lo : Bool) (bt : ℚ) (l : Layer)
    (e : Entry) (sec : LayerSound) (hl : e.layer l = some sec)
    (hplay : sec.playing = true) (hdrift : 1/10 < |sec.currentTime - bt|) :
    checkDriftField g lo bt l e =
      applyIntensityEntry g (e.setLayer l
        (LayerSound.play { volume := 0, offset := some bt, loop := lo }
          sec.stop)) := by
  unfold checkDriftField
  rw [hl]
  dsimp only
  rw [if_neg (not_not_intro hplay), if_pos hdrift]

/-- `checkDrift` preserves the volumes-are-current fixpoint. -/
theorem checkDriftField_fix (g : MixGlobals) (lo : Bool) (bt : ℚ) (l : Layer)
    (e : Entry) (h : applyIntensityEntry g e = e) :
    applyIntensityEntry g (checkDriftField g lo bt l e) =
      checkDriftField g lo bt l e := by
  unfold checkDriftField
  cases hl : e.layer l with
  | none => exact h
  | some sec =>
    dsimp only
    split_ifs
    · exact applyIntensityEntry_idem _ _
    · exact h
    · exact h

/-- Volume re-application after a layer write keeps the other layers'
cores. -/
theorem applyIntensity_setLayer_core (g : MixGlobals) (e : Entry)
    (l l1 : Layer) (s : LayerSound) (h : l1 ≠ l) :
    sameLayerCore ((applyIntensityEntry g (e.setLayer l s)).layer l1)
      (e.layer l1) := by
  refine sameLayerCore_trans (applyIntensityEntry_core _ _ _) ?_
  rw [Entry.layer_setLayer_ne _ _ _ _ h]
  exact sameLayerCore_refl _

/-- The written layer after volume re-application. -/
theorem applyIntensity_setLayer_self (g : MixGlobals) (e : Entry) (l : Layer)
    (s : LayerSound) :
    ∃ vol, (applyIntensityEntry g (e.setLayer l s)).layer l =
      some { s with volume := vol } := by
  obtain ⟨vol, hv⟩ := applyIntensityEntry_layer_exists g (e.setLayer l s) l
  rw [Entry.layer_setLayer_self] at hv
  exact ⟨vol, by rw [hv]; rfl⟩

/-- State of a drifted secondary right after its `checkDrift` correction:
restarted (playing) at the primary's captured time. -/
theorem fired_layer_state (g : MixGlobals) (lo : Bool) (bt : ℚ) (l : Layer)
    (e : Entry) (sec : LayerSound) (hl : e.layer l = some sec)
    (hplay : sec.playing = true) (hdrift : 1/10 < |sec.currentTime - bt|) :
    ∃ s1, (checkDriftField g lo bt l e).layer l = some s1 ∧
      s1.currentTime = bt ∧ s1.playing = true := by
  rw [checkDriftField_fires g lo bt l e sec hl hplay hdrift]
  obtain ⟨vol, hv⟩ := applyIntensity_setLayer_self g e l
    (LayerSound.play { volume := 0, offset := some bt, loop := lo } sec.stop)
  exact ⟨_, hv, rfl, rfl⟩

/-- A `checkDrift` correction leaves the volumes-are-current fixpoint. -/
theorem checkDriftField_fires_fix (g : MixGlobals) (lo : Bool) (bt : ℚ)
    (l : Layer) (e : Entry) (sec : LayerSound) (hl : e.layer l = some sec)
    (hplay : sec.playing = true) (hdrift : 1/10 < |sec.currentTime - bt|) :
    applyIntensityEntry g (checkDriftField g lo bt l e) =
      checkDriftField g lo bt l e := by
  rw [checkDriftField_fires g lo bt l e sec hl hplay hdrift]
  exact applyIntensityEntry_idem _ _

/-- C4: during one drift-monitor tick, a present, playing secondary layer
whose elapsed time differs from the primary's by more than 0.1 s is stopped
and restarted at an offset equal to the primary's current elapsed time, with
volumes reapplied immediately via the mix calculation (the resulting entry is
a fixpoint of `_applyIntensityToSound`); the primary layer's playback state
is not altered, so any pre-existing drift (for example 0.15 s) is reduced to
zero offset in a single tick. -/
theorem drift_tick_resyncs_secondary (g : MixGlobals) (e : Entry)
    (lp ls : Layer) (p s : LayerSound)
    (hprim : primaryLayer e = some lp)
    (hp : e.layer lp = some p)
    (hpplay : p.playing = true)
    (hnoend : ¬(¬e.sound.looping ∧ 0 < p.duration ∧
      p.duration - 1/5 ≤ p.currentTime))
    (hne : ls ≠ lp)
    (hs : e.layer ls = some s)
    (hsplay : s.playing = true)
    (hdrift : 1/10 < |s.currentTime - p.currentTime|) :
    ∃ e1, driftTickEntry g e = some e1 ∧
      (∃ s1, e1.layer ls = some s1 ∧ s1.currentTime = p.currentTime ∧
        s1.playing = true) ∧
      (∃ p1, e1.layer lp = some p1 ∧ p1.currentTime = p.currentTime ∧
        p1.playing = true ∧ p1.duration = p.duration) ∧
      applyIntensityEntry g e1 = e1 := by
  cases lp with
  | low =>
    have hchain : driftTickEntry g e =
        some (checkDriftField g e.sound.looping p.currentTime Layer.mid
          (checkDriftField g e.sound.looping p.currentTime Layer.high e)) := by
      unfold driftTickEntry
      rw [hprim]
      dsimp only
      rw [hp]
      dsimp only
      rw [if_neg (not_not_intro hpplay), if_neg hnoend]
      try dsimp only
      rw [if_pos (by decide : (Layer.low : Layer) ≠ Layer.high),
          if_pos (by decide : (Layer.low : Layer) ≠ Layer.mid),
          if_neg (by decide : ¬((Layer.low : Layer) ≠ Layer.low))]
    cases ls with
    | low => exact absurd rfl hne
    | mid =>
      have hcore1 := checkDriftField_core_ne g e.sound.looping p.currentTime
        Layer.high Layer.mid e (by decide)
      rw [hs] at hcore1
      obtain ⟨s2, hs2, hplay2, htime2, _⟩ := sameLayerCore_some hcore1
      have hplay2t : s2.playing = true := hplay2.trans hsplay
      have hdrift2 : 1/10 < |s2.currentTime - p.currentTime| := by
        rw [htime2]; exact hdrift
      obtain ⟨s1, hs1, hct1, hpl1⟩ := fired_layer_state g e.sound.looping
        p.currentTime Layer.mid _ s2 hs2 hplay2t hdrift2
      have hpcore : sameLayerCore
          ((checkDriftField g e.sound.looping p.currentTime Layer.mid
            (checkDriftField g e.sound.looping p.currentTime Layer.high
              e)).layer Layer.low) (e.layer Layer.low) :=
        sameLayerCore_trans
          (checkDriftField_core_ne g e.sound.looping p.currentTime Layer.mid
            Layer.low _ (by decide))
          (checkDriftField_core_ne g e.sound.looping p.currentTime Layer.high
            Layer.low e (by decide))
      rw [hp] at hpcore
      obtain ⟨p1, hp1, hp1play, hp1time, hp1dur⟩ := sameLayerCore_some hpcore
      have hfix := checkDriftField_fires_fix g e.sound.looping p.currentTime
        Layer.mid _ s2 hs2 hplay2t hdrift2
      exact ⟨_, hchain, ⟨s1, hs1, hct1, hpl1⟩,
        ⟨p1, hp1, hp1time, hp1play.trans hpplay, hp1dur⟩, hfix⟩
    | high =>
      obtain ⟨s1, hs1, hct1, hpl1⟩ := fired_layer_state g e.sound.looping
        p.currentTime Layer.high e s hs hsplay hdrift
      have hcore2 := checkDriftField_core_ne g e.sound.looping p.currentTime
        Layer.mid Layer.high
        (checkDriftField g e.sound.looping p.currentTime Layer.high e)
        (by decide)
      rw [hs1] at hcore2
      obtain ⟨s3, hs3, hplay3, htime3, _⟩ := sameLayerCore_some hcore2
      have hpcore : sameLayerCore
          ((checkDriftField g e.sound.looping p.currentTime Layer.mid
            (checkDriftField g e.sound.looping p.currentTime Layer.high
              e)).layer Layer.low) (e.layer Layer.low) :=
        sameLayerCore_trans
          (checkDriftField_core_ne g e.sound.looping p.currentTime Layer.mid
            Layer.low _ (by decide))
          (checkDriftField_core_ne g e.sound.looping p.currentTime Layer.high
            Layer.low e (by decide))
      rw [hp] at hpcore
      obtain ⟨p1, hp1, hp1play, hp1time, hp1dur⟩ := sameLayerCore_some hpcore
      have hfix1 := checkDriftField_fires_fix g e.sound.looping p.currentTime
        Layer.high e s hs hsplay hdrift
      have hfix2 := checkDriftField_fix g e.sound.looping p.currentTime
        Layer.mid _ hfix1
      exact ⟨_, hchain, ⟨s3, hs3, htime3.trans hct1, hplay3.trans hpl1⟩,
        ⟨p1, hp1, hp1time, hp1play.trans hpplay, hp1dur⟩, hfix2⟩
  | mid =>
    have hlownone : e.lowSound = none := by
      by_cases hlo : e.lowSound.isSome
      · simp [primaryLayer, hlo] at hprim
      · exact Option.not_isSome_iff_eq_none.mp hlo
    cases ls with
    | mid => exact absurd rfl hne
    | low =>
      have hs1 : e.lowSound = some s := hs
      rw [hlownone] at hs1
      exact Option.noConfusion hs1
    | high =>
      have hchain : driftTickEntry g e =
          some (checkDriftField g e.sound.looping p.currentTime Layer.low
            (checkDriftField g e.sound.looping p.currentTime Layer.high e)) := by
        unfold driftTickEntry
        rw [hprim]
        dsimp only
        rw [hp]
        dsimp only
        rw [if_neg (not_not_intro hpplay), if_neg hnoend]
        try dsimp only
        rw [if_pos (by decide : (Layer.mid : Layer) ≠ Layer.high),
            if_neg (by decide : ¬((Layer.mid : Layer) ≠ Layer.mid)),
            if_pos (by decide : (Layer.mid : Layer) ≠ Layer.low)]
      have hlow1 : (checkDriftField g e.sound.looping p.currentTime Layer.high
          e).layer Layer.low = none := by
        have hcore := checkDriftField_core_ne g e.sound.looping p.currentTime
          Layer.high Layer.low e (by decide)
        have hnone : e.layer Layer.low = none := hlownone
        rw [hnone] at hcore
        cases hopt : (checkDriftField g e.sound.looping p.currentTime Layer.high
            e).layer Layer.low with
        | none => rfl
        | some s4 => rw [hopt] at hcore; simp [sameLayerCore] at hcore
      rw [checkDriftField_none g e.sound.looping p.currentTime Layer.low _
        hlow1] at hchain
      obtain ⟨s1, hs1, hct1, hpl1⟩ := fired_layer_state g e.sound.looping
        p.currentTime Layer.high e s hs hsplay hdrift
      have hpcore := checkDriftField_core_ne g e.sound.looping p.currentTime
        Layer.high Layer.mid e (by decide)
      rw [hp] at hpcore
      obtain ⟨p1, hp1, hp1play, hp1time, hp1dur⟩ := sameLayerCore_some hpcore
      have hfix1 := checkDriftField_fires_fix g e.sound.looping p.currentTime
        Layer.high e s hs hsplay hdrift
      exact ⟨_, hchain, ⟨s1, hs1, hct1, hpl1⟩,
        ⟨p1, hp1, hp1time, hp1play.trans hpplay, hp1dur⟩, hfix1⟩
  | high =>
    have hlownone : e.lowSound = none := by
      by_cases hlo : e.lowSound.isSome
      · simp [primaryLayer, hlo] at hprim
      · exact Option.not_isSome_iff_eq_none.mp hlo
    have hmidnone : e.midSound = none := by
      by_cases hmi : e.midSound.isSome
      · simp [primaryLayer, hlownone, hmi] at hprim
      · exact Option.not_isSome_iff_eq_none.mp hmi
    cases ls with
    | high => exact absurd rfl hne
    | low =>
      have hs1 : e.lowSound = some s := hs
      rw [hlownone] at hs1
      exact Option.noConfusion hs1
    | mid =>
      have hs1 : e.midSound = some s := hs
      rw [hmidnone] at hs1
      exact Option.noConfusion hs1

/-- Concrete instance of C4: the 0.15 s drifted Mid layer is restarted at
the primary's 10 s position in a single tick and the primary is untouched. -/
theorem drift_tick_resyncs_secondary_witness :
    ∃ e1, driftTickEntry driftGlobals driftEntry = some e1 ∧
      (∃ s1, e1.layer Layer.mid = some s1 ∧
        s1.currentTime = driftPrimary.currentTime ∧ s1.playing = true) ∧
      (∃ p1, e1.layer Layer.low = some p1 ∧
        p1.currentTime = driftPrimary.currentTime ∧ p1.playing = true ∧
        p1.duration = driftPrimary.duration) ∧
      applyIntensityEntry driftGlobals e1 = e1 :=
  drift_tick_resyncs_secondary driftGlobals driftEntry Layer.low Layer.mid
    driftPrimary driftSecondary rfl rfl rfl
    (by norm_num [driftEntry, sampleSound])
    (by decide) rfl rfl
    (by
      have h1 : driftSecondary.currentTime - driftPrimary.currentTime = 3/20 := by
        norm_num [driftSecondary, driftPrimary]
      rw [h1, abs_of_pos (by norm_num : (0:ℚ) < 3/20)]
      norm_num)

end AdaptiveAudio
